import Mathlib

/-!
# Verification of the OCPP log viewer's trace-record pipeline

Shallow embedding of `src/main.rs` of the `ocpp_log_viewer` repository.

Modelling choices:
* Rust `f64` scalar values are modelled as rationals `ℚ`; the standard
  library's `str::parse::<f64>` is an abstract parameter
  `parseF : String → Option ℚ` (`Ok v ↦ some v`, `Err ↦ none`), so
  `parse().unwrap_or(0.0)` becomes `(parseF s).getD 0`.
* `chrono::DateTime::parse_from_str(s, fmt)` is an abstract parameter
  `parseTs : String → String → Option Int` returning the instant on success.
* `serde_json::from_str::<MeterValuesRequest>` is an abstract parameter
  `decode : String → Option MeterValuesRequest`.
* `rust_ocpp::v1_6::types::Measurand` and `Phase` are large enumerations;
  the code only distinguishes the variants below and sends all others to
  `_ => {}`, so the remaining variants are collapsed into a single `Other`
  constructor.
* The `rec.log` calls of one record are modelled as the list of
  (entity path, scalar value) pairs in emission order; the timestamp set by
  `set_timestamp_secs_since_epoch` is paired with that list.
-/

/-- `rust_ocpp::v1_6::types::Measurand`, with the variants the `match` in
`main` does not name collapsed into `Other`. -/
inductive Measurand where
  | CurrentImport
  | CurrentOffered
  | PowerOffered
  | PowerActiveImport
  | Voltage
  | Other
  deriving DecidableEq, Repr

/-- `rust_ocpp::v1_6::types::Phase`, with the variants the `match` in `main`
does not name (N, L1-N, …) collapsed into `Other`. -/
inductive Phase where
  | L1
  | L2
  | L3
  | Other
  deriving DecidableEq, Repr

/-- `rust_ocpp::v1_6::types::SampledValue`: the fields `main` reads. -/
structure SampledValue where
  value : String
  measurand : Option Measurand
  phase : Option Phase
  deriving DecidableEq, Repr

/-- `rust_ocpp::v1_6::types::MeterValue`: the field `main` reads. -/
structure MeterValue where
  sampled_value : List SampledValue
  deriving DecidableEq, Repr

/-- `rust_ocpp::v1_6::messages::meter_values::MeterValuesRequest`. -/
structure MeterValuesRequest where
  meter_value : List MeterValue
  deriving DecidableEq, Repr

/-- The ten `Option<f64>` locals of `main` (lines 74–86). -/
structure ChannelState where
  current_import_l1 : Option ℚ
  current_import_l2 : Option ℚ
  current_offered : Option ℚ
  power_offered : Option ℚ
  voltage_l1 : Option ℚ
  voltage_l2 : Option ℚ
  voltage_l3 : Option ℚ
  power_active_import_l1 : Option ℚ
  power_active_import_l2 : Option ℚ
  power_active_import_l3 : Option ℚ
  deriving DecidableEq, Repr

/-- The initial state: all ten locals are `None`. -/
def initChannelState : ChannelState :=
  ⟨none, none, none, none, none, none, none, none, none, none⟩

/-- The body of the inner `for sampled_value in &meter_value.sampled_value`
loop (lines 90–146): the nested `match` on `sampled_value.measurand` and
`sampled_value.phase`, where `sampled_value.value.parse::<f64>().unwrap_or(0.0)`
is `(parseF sv.value).getD 0`. -/
def processSampledValue (parseF : String → Option ℚ) (st : ChannelState)
    (sv : SampledValue) : ChannelState :=
  match sv.measurand with
  | some Measurand.CurrentImport =>
    match sv.phase with
    | some Phase.L1 => { st with current_import_l1 := some ((parseF sv.value).getD 0) }
    | some Phase.L2 => { st with current_import_l2 := some ((parseF sv.value).getD 0) }
    | _ => st
  | some Measurand.CurrentOffered =>
    { st with current_offered := some ((parseF sv.value).getD 0) }
  | some Measurand.PowerOffered =>
    { st with power_offered := some ((parseF sv.value).getD 0) }
  | some Measurand.PowerActiveImport =>
    match sv.phase with
    | some Phase.L1 => { st with power_active_import_l1 := some ((parseF sv.value).getD 0) }
    | some Phase.L2 => { st with power_active_import_l2 := some ((parseF sv.value).getD 0) }
    | some Phase.L3 => { st with power_active_import_l3 := some ((parseF sv.value).getD 0) }
    | _ => st
  | some Measurand.Voltage =>
    match sv.phase with
    | some Phase.L1 => { st with voltage_l1 := some ((parseF sv.value).getD 0) }
    | some Phase.L2 => { st with voltage_l2 := some ((parseF sv.value).getD 0) }
    | some Phase.L3 => { st with voltage_l3 := some ((parseF sv.value).getD 0) }
    | _ => st
  | _ => st

/-- The nested `for meter_value in &meter_vaules_request.meter_value`
loops (lines 88–148), folding `processSampledValue` over every sampled
value in message order, starting from the all-`None` state. -/
def extractChannels (parseF : String → Option ℚ) (req : MeterValuesRequest) :
    ChannelState :=
  req.meter_value.foldl
    (fun st mv => mv.sampled_value.foldl (processSampledValue parseF) st)
    initChannelState

/-- The sequence of `rec.log(path, Scalars::single(v))` calls for one record
(lines 158–207), in emission order, with every `unwrap_or(0.0)` as `getD 0`.
Note the first path is `format!("{}/current/import/L1", date)`: it is
prefixed with the date field. -/
def emittedChannels (parseF : String → Option ℚ) (date : String)
    (req : MeterValuesRequest) : List (String × ℚ) :=
  let st := extractChannels parseF req
  [ (date ++ "/current/import/L1", st.current_import_l1.getD 0),
    ("current/import/L2", st.current_import_l2.getD 0),
    ("current/offered", st.current_offered.getD 0),
    ("power/offered", st.power_offered.getD 0),
    ("voltage/L1", st.voltage_l1.getD 0),
    ("voltage/L2", st.voltage_l2.getD 0),
    ("voltage/L3", st.voltage_l3.getD 0),
    ("power/active/import/L1", st.power_active_import_l1.getD 0),
    ("power/active/import/L2", st.power_active_import_l2.getD 0),
    ("power/active/import/L3", st.power_active_import_l3.getD 0),
    ("power/active/import/sum",
      st.power_active_import_l1.getD 0 + st.power_active_import_l2.getD 0
        + st.power_active_import_l3.getD 0) ]

/-- Rust's `str::split` with a character predicate: the (possibly empty)
pieces between separator characters, where the empty string yields one
empty piece. Structural recursion over the character list. -/
def splitChars (p : Char → Bool) : List Char → List String
  | [] => [""]
  | c :: cs =>
    if p c then "" :: splitChars p cs
    else
      match splitChars p cs with
      | [] => [String.mk [c]]
      | f :: r => String.mk (c :: f.data) :: r

/-- `line.split(char::is_whitespace)` (lines 46–49). -/
def splitWs (line : String) : List String :=
  splitChars (fun c => c.isWhitespace) line.data

/-- `format!("{} {} +00:00", date, time)` (line 60). -/
def mkDateTime (date time : String) : String :=
  date ++ " " ++ time ++ " +00:00"

/-- The body of the `for line in &contents` loop (lines 45–208): field-count
check, timestamp derivation, payload decoding, extraction and emission.
`none` means the loop body `continue`d (or the `if let Ok` failed) without
emitting anything; `some (ts, chans)` is the record's timestamp together
with its channel writes. -/
def processLine (parseTs : String → String → Option Int)
    (decode : String → Option MeterValuesRequest)
    (parseF : String → Option ℚ) (line : String) :
    Option (Int × List (String × ℚ)) :=
  let line_parts := splitWs line
  if line_parts.length ≠ 10 then none
  else
    let date := line_parts.getD 0 ""
    let time := line_parts.getD 1 ""
    let json := line_parts.getD 9 ""
    let date_time := mkDateTime date time
    if date_time.isEmpty then none
    else
      match parseTs date_time "%Y-%m-%d %H:%M:%S %z" with
      | none => none
      | some timestamp =>
        match decode json with
        | none => none
        | some req => some (timestamp, emittedChannels parseF date req)

/-- Names for the ten value channels, to state which channel a
`SampledValue` writes. -/
inductive Channel where
  | currentImportL1
  | currentImportL2
  | currentOffered
  | powerOffered
  | voltageL1
  | voltageL2
  | voltageL3
  | powerActiveImportL1
  | powerActiveImportL2
  | powerActiveImportL3
  deriving DecidableEq, Repr

/-- Read one of the ten locals of a `ChannelState`. -/
def getChannel (st : ChannelState) : Channel → Option ℚ
  | Channel.currentImportL1 => st.current_import_l1
  | Channel.currentImportL2 => st.current_import_l2
  | Channel.currentOffered => st.current_offered
  | Channel.powerOffered => st.power_offered
  | Channel.voltageL1 => st.voltage_l1
  | Channel.voltageL2 => st.voltage_l2
  | Channel.voltageL3 => st.voltage_l3
  | Channel.powerActiveImportL1 => st.power_active_import_l1
  | Channel.powerActiveImportL2 => st.power_active_import_l2
  | Channel.powerActiveImportL3 => st.power_active_import_l3

/-- Write one of the ten locals of a `ChannelState`. -/
def setChannel (st : ChannelState) (c : Channel) (v : ℚ) : ChannelState :=
  match c with
  | Channel.currentImportL1 => { st with current_import_l1 := some v }
  | Channel.currentImportL2 => { st with current_import_l2 := some v }
  | Channel.currentOffered => { st with current_offered := some v }
  | Channel.powerOffered => { st with power_offered := some v }
  | Channel.voltageL1 => { st with voltage_l1 := some v }
  | Channel.voltageL2 => { st with voltage_l2 := some v }
  | Channel.voltageL3 => { st with voltage_l3 := some v }
  | Channel.powerActiveImportL1 => { st with power_active_import_l1 := some v }
  | Channel.powerActiveImportL2 => { st with power_active_import_l2 := some v }
  | Channel.powerActiveImportL3 => { st with power_active_import_l3 := some v }

/-- `setChannel` lifted to an optional target: no target, no write. -/
def setChannelOpt (st : ChannelState) : Option Channel → ℚ → ChannelState
  | none, _ => st
  | some c, v => setChannel st c v

/-- The dispatch table of spec §4.4, stated from the spec's words: which
channel a `(measurand, phase)` pair writes, `none` meaning ignored. -/
def specChannelFor : Option Measurand → Option Phase → Option Channel
  | some Measurand.CurrentImport, some Phase.L1 => some Channel.currentImportL1
  | some Measurand.CurrentImport, some Phase.L2 => some Channel.currentImportL2
  | some Measurand.CurrentImport, _ => none
  | some Measurand.CurrentOffered, _ => some Channel.currentOffered
  | some Measurand.PowerOffered, _ => some Channel.powerOffered
  | some Measurand.PowerActiveImport, some Phase.L1 => some Channel.powerActiveImportL1
  | some Measurand.PowerActiveImport, some Phase.L2 => some Channel.powerActiveImportL2
  | some Measurand.PowerActiveImport, some Phase.L3 => some Channel.powerActiveImportL3
  | some Measurand.PowerActiveImport, _ => none
  | some Measurand.Voltage, some Phase.L1 => some Channel.voltageL1
  | some Measurand.Voltage, some Phase.L2 => some Channel.voltageL2
  | some Measurand.Voltage, some Phase.L3 => some Channel.voltageL3
  | some Measurand.Voltage, _ => none
  | _, _ => none

/-- The position of each value channel's write within `emittedChannels`
(the derived sum write sits at position 10). -/
def channelIndex : Channel → Nat
  | Channel.currentImportL1 => 0
  | Channel.currentImportL2 => 1
  | Channel.currentOffered => 2
  | Channel.powerOffered => 3
  | Channel.voltageL1 => 4
  | Channel.voltageL2 => 5
  | Channel.voltageL3 => 6
  | Channel.powerActiveImportL1 => 7
  | Channel.powerActiveImportL2 => 8
  | Channel.powerActiveImportL3 => 9

/-- `processLine` with the `if date_time.is_empty() { continue; }` branch
(lines 61–63) removed, to state that that branch is dead. -/
def processLineNoEmptyCheck (parseTs : String → String → Option Int)
    (decode : String → Option MeterValuesRequest)
    (parseF : String → Option ℚ) (line : String) :
    Option (Int × List (String × ℚ)) :=
  let line_parts := splitWs line
  if line_parts.length ≠ 10 then none
  else
    let date := line_parts.getD 0 ""
    let time := line_parts.getD 1 ""
    let json := line_parts.getD 9 ""
    let date_time := mkDateTime date time
    match parseTs date_time "%Y-%m-%d %H:%M:%S %z" with
    | none => none
    | some timestamp =>
      match decode json with
      | none => none
      | some req => some (timestamp, emittedChannels parseF date req)

/-! ## Helper lemmas -/

lemma processSampledValue_eq_setChannelOpt (parseF : String → Option ℚ)
    (st : ChannelState) (sv : SampledValue) :
    processSampledValue parseF st sv =
      setChannelOpt st (specChannelFor sv.measurand sv.phase)
        ((parseF sv.value).getD 0) := by
  obtain ⟨v, m, p⟩ := sv
  rcases m with _ | m
  · rfl
  rcases p with _ | p
  · cases m <;> rfl
  · cases m <;> cases p <;> rfl

lemma getChannel_setChannel_self (st : ChannelState) (c : Channel) (v : ℚ) :
    getChannel (setChannel st c v) c = some v := by
  cases c <;> rfl

lemma getChannel_setChannel_ne (st : ChannelState) {c c' : Channel} (v : ℚ)
    (h : c' ≠ c) :
    getChannel (setChannel st c v) c' = getChannel st c' := by
  cases c <;> cases c' <;> first | rfl | exact absurd rfl h

lemma getChannel_processSampledValue_target (parseF : String → Option ℚ)
    (st : ChannelState) (sv : SampledValue) (c : Channel)
    (h : specChannelFor sv.measurand sv.phase = some c) :
    getChannel (processSampledValue parseF st sv) c =
      some ((parseF sv.value).getD 0) := by
  rw [processSampledValue_eq_setChannelOpt, h]
  exact getChannel_setChannel_self st c _

lemma getChannel_processSampledValue_other (parseF : String → Option ℚ)
    (st : ChannelState) (sv : SampledValue) (c : Channel)
    (h : specChannelFor sv.measurand sv.phase ≠ some c) :
    getChannel (processSampledValue parseF st sv) c = getChannel st c := by
  rw [processSampledValue_eq_setChannelOpt]
  cases hsc : specChannelFor sv.measurand sv.phase with
  | none => rfl
  | some c' =>
    have hne : c ≠ c' := fun he => h (by rw [hsc, he])
    exact getChannel_setChannel_ne st _ hne

lemma foldl_meterValues_eq_flatten (parseF : String → Option ℚ)
    (mvs : List MeterValue) (st : ChannelState) :
    mvs.foldl (fun st mv => mv.sampled_value.foldl (processSampledValue parseF) st) st =
      (mvs.flatMap MeterValue.sampled_value).foldl (processSampledValue parseF) st := by
  induction mvs generalizing st with
  | nil => rfl
  | cons mv mvs ih => simp [List.foldl_append, ih]

lemma extractChannels_eq_foldl_flatten (parseF : String → Option ℚ)
    (req : MeterValuesRequest) :
    extractChannels parseF req =
      (req.meter_value.flatMap MeterValue.sampled_value).foldl
        (processSampledValue parseF) initChannelState :=
  foldl_meterValues_eq_flatten parseF req.meter_value initChannelState

lemma mkDateTime_ne_empty (d t : String) : mkDateTime d t ≠ "" := by
  intro h
  have hlen := congrArg String.length h
  have h1 : (" " : String).length = 1 := rfl
  have h2 : (" +00:00" : String).length = 7 := rfl
  have h0 : ("" : String).length = 0 := rfl
  rw [mkDateTime] at hlen
  simp only [String.length_append, h1, h2, h0] at hlen
  omega

lemma mkDateTime_isEmpty_eq_false (d t : String) :
    (mkDateTime d t).isEmpty = false := by
  rw [Bool.eq_false_iff]
  intro h
  exact mkDateTime_ne_empty d t ((String.isEmpty_iff _).mp h)

/-! ## Claim theorems -/

/-- C1: for every decoded message and every `SampledValue` in it, the inner
loop body writes exactly the channel the dispatch table of spec §4.4
prescribes for the `(measurand, phase)` pair — `processSampledValue` equals
a single `setChannelOpt` at `specChannelFor`, so CurrentImport writes only
L1/L2, CurrentOffered and PowerOffered ignore the phase, PowerActiveImport
and Voltage write only L1/L2/L3, and every other pair leaves the state
untouched. -/
theorem c1_dispatch_table (parseF : String → Option ℚ)
    (st : ChannelState) (sv : SampledValue) :
    processSampledValue parseF st sv =
      setChannelOpt st (specChannelFor sv.measurand sv.phase)
        ((parseF sv.value).getD 0) :=
  processSampledValue_eq_setChannelOpt parseF st sv

/-- C2: in every emitted bundle, the final `power/active/import/sum` write
equals the sum of the three `power/active/import/L1..L3` phase values, each
defaulting to `0` when its `Option` was never set, for every message (hence
for every combination of present and absent phases). -/
theorem c2_sum_channel (parseF : String → Option ℚ) (date : String)
    (req : MeterValuesRequest) :
    (emittedChannels parseF date req).getLast? =
      some ("power/active/import/sum",
        ((extractChannels parseF req).power_active_import_l1.getD 0)
          + ((extractChannels parseF req).power_active_import_l2.getD 0)
          + ((extractChannels parseF req).power_active_import_l3.getD 0)) ∧
    ("power/active/import/L1",
        (extractChannels parseF req).power_active_import_l1.getD 0)
      ∈ emittedChannels parseF date req ∧
    ("power/active/import/L2",
        (extractChannels parseF req).power_active_import_l2.getD 0)
      ∈ emittedChannels parseF date req ∧
    ("power/active/import/L3",
        (extractChannels parseF req).power_active_import_l3.getD 0)
      ∈ emittedChannels parseF date req := by
  refine ⟨rfl, ?_, ?_, ?_⟩ <;> simp [emittedChannels]

/-- C9: the measurand extractor is a pure function of the decoded message:
running it (and the bundle construction) twice on the same message yields
identical results — no state survives a run. -/
theorem c9_idempotent (parseF : String → Option ℚ) (date : String)
    (req : MeterValuesRequest) :
    extractChannels parseF req = extractChannels parseF req ∧
    emittedChannels parseF date req = emittedChannels parseF date req :=
  ⟨rfl, rfl⟩

/-- C10: the `date_time.is_empty()` check is dead code: the formatted string
always ends in `" +00:00"`, so it is never empty, and removing the check
leaves the per-line pipeline unchanged on every input. -/
theorem c10_empty_check_dead :
    (∀ d t : String, (mkDateTime d t).isEmpty = false) ∧
    (∀ (parseTs : String → String → Option Int)
        (decode : String → Option MeterValuesRequest)
        (parseF : String → Option ℚ) (line : String),
        processLine parseTs decode parseF line =
          processLineNoEmptyCheck parseTs decode parseF line) := by
  refine ⟨mkDateTime_isEmpty_eq_false, ?_⟩
  intro parseTs decode parseF line
  simp [processLine, processLineNoEmptyCheck, mkDateTime_isEmpty_eq_false]

/-- C4: any line whose whitespace-split field count is not exactly 10
produces no channel bundle: the loop body `continue`s before timestamp
resolution or payload decoding, surfacing no error. -/
theorem c4_field_count_filter (parseTs : String → String → Option Int)
    (decode : String → Option MeterValuesRequest)
    (parseF : String → Option ℚ) (line : String)
    (h : (splitWs line).length ≠ 10) :
    processLine parseTs decode parseF line = none := by
  simp [processLine, h]

/-- Witness for C4 at the three-field line `"a b c"`. -/
theorem c4_field_count_filter_witness :
    (splitWs "a b c").length ≠ 10 ∧
      processLine (fun _ _ => none) (fun _ => none) (fun _ => none) "a b c"
        = none :=
  ⟨by decide, c4_field_count_filter _ _ _ _ (by decide)⟩

/-- C5: for a 10-field line the timestamp string handed to the parser is
exactly `"{date} {time} +00:00"` with the fixed format
`"%Y-%m-%d %H:%M:%S %z"`, and when that parse returns no instant the line
produces no channel bundle (the loop `continue`s, no fatal error). -/
theorem c5_timestamp_skip (parseTs : String → String → Option Int)
    (decode : String → Option MeterValuesRequest)
    (parseF : String → Option ℚ) (line : String)
    (h10 : (splitWs line).length = 10)
    (hts : parseTs
        (mkDateTime ((splitWs line).getD 0 "") ((splitWs line).getD 1 ""))
        "%Y-%m-%d %H:%M:%S %z" = none) :
    processLine parseTs decode parseF line = none := by
  simp [h10] at hts
  simp [processLine, h10, hts]

/-- Witness for C5 at a 10-field line whose timestamp parse fails. -/
theorem c5_timestamp_skip_witness :
    (splitWs "2024-01-01 12:00:00 a b c d e f g h").length = 10 ∧
      processLine (fun _ _ => none) (fun _ => some ⟨[]⟩) (fun _ => none)
        "2024-01-01 12:00:00 a b c d e f g h" = none :=
  ⟨by decide, c5_timestamp_skip _ _ _ _ (by decide) rfl⟩

/-- C6: for a 10-field line whose timestamp parses but whose field 9 does
not decode as a `MeterValuesRequest`, the record is silently skipped: no
channels are emitted and no error is surfaced. -/
theorem c6_decode_skip (parseTs : String → String → Option Int)
    (decode : String → Option MeterValuesRequest)
    (parseF : String → Option ℚ) (line : String) (ts : Int)
    (h10 : (splitWs line).length = 10)
    (hts : parseTs
        (mkDateTime ((splitWs line).getD 0 "") ((splitWs line).getD 1 ""))
        "%Y-%m-%d %H:%M:%S %z" = some ts)
    (hdec : decode ((splitWs line).getD 9 "") = none) :
    processLine parseTs decode parseF line = none := by
  simp [h10] at hts hdec
  simp [processLine, h10, hts, hdec]

/-- Witness for C6 at a 10-field line whose payload does not decode. -/
theorem c6_decode_skip_witness :
    (splitWs "2024-01-01 12:00:00 a b c d e f g h").length = 10 ∧
      processLine (fun _ _ => some 0) (fun _ => none) (fun _ => none)
        "2024-01-01 12:00:00 a b c d e f g h" = none :=
  ⟨by decide, c6_decode_skip _ _ _ _ 0 (by decide) rfl rfl⟩

/-- C7: tolerant numeric coercion — if a `SampledValue` maps to a channel
but its value string does not parse, that channel is set to `0`, and the
record as a whole is still processed and emitted: whenever the field count,
timestamp and payload decode succeed, `processLine` emits the bundle, with
no condition on any value parse. -/
theorem c7_value_parse_default :
    (∀ (parseF : String → Option ℚ) (st : ChannelState) (sv : SampledValue)
        (c : Channel),
        specChannelFor sv.measurand sv.phase = some c →
        parseF sv.value = none →
        getChannel (processSampledValue parseF st sv) c = some 0) ∧
    (∀ (parseTs : String → String → Option Int)
        (decode : String → Option MeterValuesRequest)
        (parseF : String → Option ℚ) (line : String) (ts : Int)
        (req : MeterValuesRequest),
        (splitWs line).length = 10 →
        parseTs
          (mkDateTime ((splitWs line).getD 0 "") ((splitWs line).getD 1 ""))
          "%Y-%m-%d %H:%M:%S %z" = some ts →
        decode ((splitWs line).getD 9 "") = some req →
        processLine parseTs decode parseF line =
          some (ts, emittedChannels parseF ((splitWs line).getD 0 "") req)) := by
  constructor
  · intro parseF st sv c hc hf
    rw [getChannel_processSampledValue_target parseF st sv c hc, hf]
    rfl
  · intro parseTs decode parseF line ts req h10 hts hdec
    simp [h10] at hts hdec
    simp [processLine, h10, hts, hdec, mkDateTime_isEmpty_eq_false]

/-- Witness for C7: an unparsable Voltage/L1 value yields `voltage/L1 = 0`,
and a well-formed line with such a payload still emits its bundle. -/
theorem c7_value_parse_default_witness :
    getChannel
        (processSampledValue (fun _ => none) initChannelState
          ⟨"abc", some Measurand.Voltage, some Phase.L1⟩)
        Channel.voltageL1 = some 0 ∧
      processLine (fun _ _ => some 0)
        (fun _ => some ⟨[⟨[⟨"abc", some Measurand.Voltage, some Phase.L1⟩]⟩]⟩)
        (fun _ => none) "2024-01-01 12:00:00 a b c d e f g h" =
        some (0, emittedChannels (fun _ => none) "2024-01-01"
          ⟨[⟨[⟨"abc", some Measurand.Voltage, some Phase.L1⟩]⟩]⟩) :=
  ⟨c7_value_parse_default.1 _ _ _ _ rfl rfl,
   c7_value_parse_default.2 _ _ _ _ _ _ (by decide) rfl rfl⟩

lemma getChannel_foldl_filter_last (parseF : String → Option ℚ) (c : Channel)
    (svs : List SampledValue) (st : ChannelState) (sv : SampledValue)
    (h : (svs.filter
        (fun s => decide (specChannelFor s.measurand s.phase = some c))).getLast?
      = some sv) :
    getChannel (svs.foldl (processSampledValue parseF) st) c =
      some ((parseF sv.value).getD 0) := by
  induction svs using List.reverseRecOn with
  | nil => simp at h
  | append_singleton l a ih =>
    rw [List.foldl_append, List.foldl_cons, List.foldl_nil]
    by_cases ha : specChannelFor a.measurand a.phase = some c
    · simp only [List.filter_append, List.filter_cons, List.filter_nil,
        decide_eq_true_eq, ha, if_true, List.getLast?_concat] at h
      obtain rfl : a = sv := Option.some_injective _ h
      exact getChannel_processSampledValue_target parseF _ a c ha
    · simp only [List.filter_append, List.filter_cons, List.filter_nil,
        decide_eq_true_eq, ha, if_false, List.append_nil] at h
      rw [getChannel_processSampledValue_other parseF _ a c ha]
      exact ih h

/-- C8: last write wins — if the sampled values of a message, walked in
message traversal order (meter values in order, sampled values within each
in order), contain at least one value dispatching to channel `c`, then the
extracted value of `c` is that of the last such sampled value. -/
theorem c8_last_write_wins (parseF : String → Option ℚ)
    (req : MeterValuesRequest) (c : Channel) (sv : SampledValue)
    (h : (((req.meter_value.flatMap MeterValue.sampled_value)).filter
        (fun s => decide (specChannelFor s.measurand s.phase = some c))).getLast?
      = some sv) :
    getChannel (extractChannels parseF req) c =
      some ((parseF sv.value).getD 0) := by
  rw [extractChannels_eq_foldl_flatten]
  exact getChannel_foldl_filter_last parseF c _ initChannelState sv h

/-- Witness for C8: two Voltage/L1 samples `"1"` then `"2"` in one message;
the extracted `voltage/L1` is the later sample's value `2`. -/
theorem c8_last_write_wins_witness :
    (((⟨[⟨[⟨"1", some Measurand.Voltage, some Phase.L1⟩,
            ⟨"2", some Measurand.Voltage, some Phase.L1⟩]⟩]⟩ :
          MeterValuesRequest).meter_value.flatMap
        MeterValue.sampled_value).filter
        (fun s => decide (specChannelFor s.measurand s.phase
          = some Channel.voltageL1))).getLast?
      = some ⟨"2", some Measurand.Voltage, some Phase.L1⟩ ∧
    getChannel
        (extractChannels (fun s => if s = "2" then some 2 else some 1)
          ⟨[⟨[⟨"1", some Measurand.Voltage, some Phase.L1⟩,
              ⟨"2", some Measurand.Voltage, some Phase.L1⟩]⟩]⟩)
        Channel.voltageL1 = some 2 :=
  ⟨by decide,
   c8_last_write_wins (fun s => if s = "2" then some 2 else some 1) _
     Channel.voltageL1 ⟨"2", some Measurand.Voltage, some Phase.L1⟩
     (by decide)⟩

/-- Counterexample to C3: at date `"2024-01-01"` and the empty message, the
emitted entity paths are not the ten fixed channel names (plus sum) the
claim enumerates — the first path is `"2024-01-01/current/import/L1"`, not
`"current/import/L1"`. -/
theorem c3_fixed_names_counterexample :
    (emittedChannels (fun _ => none) "2024-01-01" ⟨[]⟩).map Prod.fst ≠
      ["current/import/L1", "current/import/L2", "current/offered",
       "power/offered", "voltage/L1", "voltage/L2", "voltage/L3",
       "power/active/import/L1", "power/active/import/L2",
       "power/active/import/L3", "power/active/import/sum"] := by
  decide

/-- C3 amended: every bundle emits exactly eleven writes in a fixed order;
the first entity path is `{date}/current/import/L1` (prefixed with the
record's date field) and the remaining ten are the fixed slash-delimited
names of the data model; and in every bundle, each value channel whose
`Option` local was never set by a corresponding `SampledValue` is emitted
with the default value `0`. -/
theorem c3_fixed_names_amended (parseF : String → Option ℚ) (date : String)
    (req : MeterValuesRequest) :
    (emittedChannels parseF date req).map Prod.fst =
      [date ++ "/current/import/L1", "current/import/L2", "current/offered",
       "power/offered", "voltage/L1", "voltage/L2", "voltage/L3",
       "power/active/import/L1", "power/active/import/L2",
       "power/active/import/L3", "power/active/import/sum"] ∧
    (∀ c : Channel, getChannel (extractChannels parseF req) c = none →
      ((emittedChannels parseF date req).getD (channelIndex c) ("", 0)).2
        = 0) := by
  refine ⟨rfl, ?_⟩
  intro c h
  cases c <;> simp [getChannel] at h <;>
    simp [emittedChannels, channelIndex, h]

/-- Witness for the amended C3: a message setting only Voltage/L1 leaves
`current/import/L2` unset, and its emitted value is `0`. -/
theorem c3_fixed_names_amended_witness :
    getChannel
        (extractChannels (fun _ => some 5)
          ⟨[⟨[⟨"7", some Measurand.Voltage, some Phase.L1⟩]⟩]⟩)
        Channel.currentImportL2 = none ∧
      ((emittedChannels (fun _ => some 5) "2024-01-01"
          ⟨[⟨[⟨"7", some Measurand.Voltage, some Phase.L1⟩]⟩]⟩).getD
        (channelIndex Channel.currentImportL2) ("", 0)).2 = 0 :=
  ⟨by decide,
   (c3_fixed_names_amended (fun _ => some 5) "2024-01-01"
       ⟨[⟨[⟨"7", some Measurand.Voltage, some Phase.L1⟩]⟩]⟩).2
     Channel.currentImportL2 (by decide)⟩
